import Mathlib

/-!
Verification development for the agent-browser installer
(`src/cli/src/install.rs`).

The installer pipeline is embedded shallowly: external effects
(tool probes via `which`, `apt-cache show` queries, subprocess exit
statuses, filesystem operations) are supplied by environment records,
and each modelled function returns the ordered trace of the external
events it performs together with its result.  Operating system and CPU
architecture are strings, matching `cfg!(target_os = ...)` and
`std::env::consts::ARCH` in the source.
-/

/-- `BROWSEROS_VERSION` constant from `install.rs`. -/
def BROWSEROS_VERSION : String := "0.39.0.3"

/-- `struct BrowserOSPackage { url, file_name }` from `install.rs`. -/
structure BrowserOSPackage where
  url : String
  file_name : String
deriving DecidableEq, Repr

/-- macOS arm64 descriptor literal from `get_browseros_package`. -/
def macArmPackage : BrowserOSPackage :=
  { url := "http://cdn.browseros.com/releases/0.39.0.3/macos/BrowserOS_v0.39.0.3_arm64.dmg"
    file_name := "BrowserOS_v0.39.0.3_arm64.dmg" }

/-- macOS x86_64 descriptor literal from `get_browseros_package`. -/
def macX64Package : BrowserOSPackage :=
  { url := "http://cdn.browseros.com/releases/0.39.0.3/macos/BrowserOS_v0.39.0.3_x64.dmg"
    file_name := "BrowserOS_v0.39.0.3_x64.dmg" }

/-- macOS universal descriptor literal from `get_browseros_package`. -/
def macUniversalPackage : BrowserOSPackage :=
  { url := "http://cdn.browseros.com/releases/0.39.0.3/macos/BrowserOS_v0.39.0.3_universal.dmg"
    file_name := "BrowserOS_v0.39.0.3_universal.dmg" }

/-- Windows descriptor literal from `get_browseros_package`. -/
def windowsPackage : BrowserOSPackage :=
  { url := "http://cdn.browseros.com/releases/0.39.0.3/win/BrowserOS_v0.39.0.3_x64_installer.exe"
    file_name := "BrowserOS_v0.39.0.3_x64_installer.exe" }

/-- Linux descriptor literal from `get_browseros_package`. -/
def linuxPackage : BrowserOSPackage :=
  { url := "http://cdn.browseros.com/releases/0.39.0.3/linux/BrowserOS_v0.39.0.3_x64.AppImage"
    file_name := "BrowserOS_v0.39.0.3_x64.AppImage" }

/-- `get_browseros_package` from `install.rs` (lines 253-286): the OS class
is the compile-time `cfg!(target_os = ...)` string, the architecture is
`env::consts::ARCH`. -/
def get_browseros_package (os arch : String) : Option BrowserOSPackage :=
  if os = "macos" then
    if arch = "aarch64" then some macArmPackage
    else if arch = "x86_64" then some macX64Package
    else some macUniversalPackage
  else if os = "windows" then
    some windowsPackage
  else if os = "linux" then
    some linuxPackage
  else
    none

/-- Observable external events performed by the installer, in order:
`which` probes, `apt-cache show` probes, stdout/stderr lines, `sh -c`
shell commands, the (pure) artifact-resolution step, `fs::create_dir_all`,
`fs::remove_dir_all`, and direct subprocess invocations. -/
inductive Event where
  | probeTool (name : String)
  | probeAptPkg (name : String)
  | out (line : String)
  | err (line : String)
  | shell (cmd : String)
  | resolveArtifact
  | createDir (path : String)
  | removeDir (path : String)
  | copyFile (src dst : String)
  | invoke (tool : String) (args : List String)
deriving DecidableEq, Repr

/-- Termination behavior of `run_install`: `exit(code)` or normal return. -/
inductive Outcome where
  | exited (code : Nat)
  | completed
deriving DecidableEq, Repr

/-- Modelled from the spec: the `crate::color` module is not under `src/`;
fatal diagnostics carry a distinguishable error prefix. -/
def error_indicator : String := "[x]"

/-- Modelled from the spec: warning prefix from the `crate::color` module. -/
def warning_indicator : String := "[!]"

/-- Modelled from the spec: success prefix from the `crate::color` module. -/
def success_indicator : String := "[ok]"

/-- Modelled from the spec: `color::cyan` only colors its text, which is
excluded terminal formatting; modelled as the identity on the text. -/
def cyan (s : String) : String := s

/-- Modelled from the spec: `color::yellow`, identity on the text. -/
def yellow (s : String) : String := s

/-- The apt-get dependency list from `run_install` (lines 30-63); the
audio library slot is the name chosen by the `libasound2t64` probe. -/
def aptDeps (libasound : String) : List String :=
  ["libxcb-shm0", "libx11-xcb1", "libx11-6", "libxcb1", "libxext6",
   "libxrandr2", "libxcomposite1", "libxcursor1", "libxdamage1",
   "libxfixes3", "libxi6", "libgtk-3-0", "libpangocairo-1.0-0",
   "libpango-1.0-0", "libatk1.0-0", "libcairo-gobject2", "libcairo2",
   "libgdk-pixbuf-2.0-0", "libxrender1", libasound, "libfreetype6",
   "libfontconfig1", "libdbus-1-3", "libnss3", "libnspr4",
   "libatk-bridge2.0-0", "libdrm2", "libxkbcommon0", "libatspi2.0-0",
   "libcups2", "libxshmfence1", "libgbm1"]

/-- The dnf dependency list from `run_install` (lines 68-91). -/
def dnfDeps : List String :=
  ["nss", "nspr", "atk", "at-spi2-atk", "cups-libs", "libdrm",
   "libXcomposite", "libXdamage", "libXrandr", "mesa-libgbm", "pango",
   "alsa-lib", "libxkbcommon", "libxcb", "libX11-xcb", "libX11",
   "libXext", "libXcursor", "libXfixes", "libXi", "gtk3",
   "cairo-gobject"]

/-- The yum dependency list from `run_install` (lines 96-110). -/
def yumDeps : List String :=
  ["nss", "nspr", "atk", "at-spi2-atk", "cups-libs", "libdrm",
   "libXcomposite", "libXdamage", "libXrandr", "mesa-libgbm", "pango",
   "alsa-lib", "libxkbcommon"]

/-- Environment for `download_file`: the `which` probe (shared with the
rest of the installer), the exit status of a `curl` / `wget` run
(`none` means the subprocess could not be spawned), and the io-error
text used when spawning fails. -/
structure DlEnv where
  which : String → Bool
  curl_status : Option Nat
  wget_status : Option Nat
  io_err : String

/-- Display of a Rust `ExitStatus` value (`"exit status: <code>"`). -/
def exit_status_display (code : Nat) : String :=
  "exit status: " ++ toString code

/-- The failure message built at lines 325-328 of `install.rs`:
`format!("Download failed for {} (exit status: {})", url, status)`. -/
def download_fail_msg (url : String) (code : Nat) : String :=
  "Download failed for " ++ url ++ " (" ++ exit_status_display code ++ ")"

/-- `download_file` from `install.rs` (lines 288-330), the
`#[cfg(not(windows))]` branch: prefer `curl` with `--retry 3`, else
`wget` without retry, else fail immediately; success is the chosen
subprocess exiting with status 0. -/
def download_file (env : DlEnv) (url output : String) :
    List Event × Except String Unit :=
  if env.which "curl" then
    let t := [Event.probeTool "curl",
              Event.invoke "curl" ["-fL", "--retry", "3", "-o", output, url]]
    match env.curl_status with
    | none => (t, Except.error ("Failed to run curl: " ++ env.io_err))
    | some c =>
        if c = 0 then (t, Except.ok ())
        else (t, Except.error (download_fail_msg url c))
  else if env.which "wget" then
    let t := [Event.probeTool "curl", Event.probeTool "wget",
              Event.invoke "wget" ["-O", output, url]]
    match env.wget_status with
    | none => (t, Except.error ("Failed to run wget: " ++ env.io_err))
    | some c =>
        if c = 0 then (t, Except.ok ())
        else (t, Except.error (download_fail_msg url c))
  else
    ([Event.probeTool "curl", Event.probeTool "wget"],
     Except.error "Neither curl nor wget is available in PATH")

/-- Environment for `install_macos_dmg`: whether a stale mount directory
exists at entry, the outcomes of the filesystem operations and
subprocess invocations the function performs, and the io-error text used
when an operation fails to run. -/
structure MacEnv where
  stale_mount : Bool
  create_home_ok : Bool
  create_mount_ok : Bool
  attach_status : Option Nat
  app_in_dmg : Bool
  prev_app : Bool
  remove_prev_ok : Bool
  copy_status : Option Nat
  exec_exists : Bool
  io_err : String

/-- `install_macos_dmg` from `install.rs` (lines 332-414).  The second
component of the result records whether the mount/staging directory
still exists when the function returns; `fs::remove_dir_all` calls
(whose errors the source ignores with `let _ =`) are modelled as
removing the directory. -/
def install_macos_dmg (env : MacEnv) (dmg_path home : String) :
    List Event × Bool × Except String String :=
  let mount_dir := home ++ "/mount"
  let app_target := home ++ "/BrowserOS.app"
  if ¬ env.create_home_ok then
    ([Event.createDir home], env.stale_mount,
     Except.error ("Failed to prepare BrowserOS directory " ++ home ++ ": " ++ env.io_err))
  else
    let t0 : List Event :=
      if env.stale_mount then
        [Event.createDir home,
         Event.invoke "hdiutil" ["detach", mount_dir, "-force"],
         Event.removeDir mount_dir]
      else [Event.createDir home]
    if ¬ env.create_mount_ok then
      (t0 ++ [Event.createDir mount_dir], false,
       Except.error ("Failed to create mount directory " ++ mount_dir ++ ": " ++ env.io_err))
    else
      let t1 := t0 ++ [Event.createDir mount_dir,
        Event.invoke "hdiutil"
          ["attach", "-nobrowse", "-quiet", "-mountpoint", mount_dir, dmg_path]]
      match env.attach_status with
      | none =>
          (t1, true,
           Except.error ("Failed to mount BrowserOS DMG: " ++ env.io_err))
      | some c =>
        if c ≠ 0 then
          (t1 ++ [Event.removeDir mount_dir], false,
           Except.error "Failed to mount BrowserOS DMG")
        else
          let app_in_dmg_path := mount_dir ++ "/BrowserOS.app"
          let inner : List Event × Except String String :=
            if ¬ env.app_in_dmg then
              ([], Except.error ("BrowserOS.app not found in mounted DMG: " ++ mount_dir))
            else if env.prev_app ∧ ¬ env.remove_prev_ok then
              ([Event.removeDir app_target],
               Except.error ("Failed to remove previous BrowserOS.app at " ++ app_target ++ ": " ++ env.io_err))
            else
              let t2 : List Event :=
                if env.prev_app then [Event.removeDir app_target] else []
              let t3 := t2 ++ [Event.invoke "cp" ["-R", app_in_dmg_path, app_target]]
              match env.copy_status with
              | none => (t3, Except.error ("Failed to copy BrowserOS.app: " ++ env.io_err))
              | some cc =>
                if cc ≠ 0 then
                  (t3, Except.error "Failed to copy BrowserOS.app from DMG")
                else
                  let executable := app_target ++ "/Contents/MacOS/BrowserOS"
                  if ¬ env.exec_exists then
                    (t3, Except.error ("Installed BrowserOS executable not found: " ++ executable))
                  else
                    (t3, Except.ok executable)
          (t1 ++ inner.1 ++
             [Event.invoke "hdiutil" ["detach", mount_dir, "-quiet"],
              Event.removeDir mount_dir],
           false, inner.2)

/-- Environment for `install_linux_appimage`: outcomes of the
directory creation, file copy and `chmod` invocation. -/
structure LinuxEnv where
  create_bin_ok : Bool
  copy_ok : Bool
  chmod_status : Option Nat
  io_err : String

/-- `install_linux_appimage` from `install.rs` (lines 416-450). -/
def install_linux_appimage (env : LinuxEnv) (appimage_path home : String) :
    List Event × Except String String :=
  let bin_dir := home ++ "/bin"
  if ¬ env.create_bin_ok then
    ([Event.createDir bin_dir],
     Except.error ("Failed to create BrowserOS bin directory " ++ bin_dir ++ ": " ++ env.io_err))
  else
    let executable := bin_dir ++ "/BrowserOS"
    if ¬ env.copy_ok then
      ([Event.createDir bin_dir, Event.copyFile appimage_path executable],
       Except.error ("Failed to install BrowserOS AppImage to " ++ executable ++ ": " ++ env.io_err))
    else
      let t := [Event.createDir bin_dir, Event.copyFile appimage_path executable,
                Event.invoke "chmod" ["+x", executable]]
      match env.chmod_status with
      | none => (t, Except.error ("Failed to run chmod +x on " ++ executable ++ ": " ++ env.io_err))
      | some c =>
        if c ≠ 0 then
          (t, Except.error ("Failed to mark BrowserOS executable as runnable: " ++ executable))
        else
          (t, Except.ok executable)

/-- Full environment for `run_install`: host OS and architecture, home
directory, the `which` / `apt-cache` probes, the dependency install
command status, directory-creation outcome, download tool statuses and
the platform-install environments. -/
structure Env where
  os : String
  arch : String
  home : String
  which : String → Bool
  apt_pkg : String → Bool
  dep_status : Option Nat
  create_downloads_ok : Bool
  curl_status : Option Nat
  wget_status : Option Nat
  mac : MacEnv
  lin : LinuxEnv
  io_err : String

/-- The package-manager probing and package-list selection from
`run_install` (lines 21-118): `which_exists("apt-get")`, then
`which_exists("dnf")`, then `which_exists("yum")`, first found wins; on
the apt-get path one extra `package_exists_apt("libasound2t64")` probe
chooses the audio-library name.  `none` is the no-manager branch (which
the orchestrator turns into an error print and `exit(1)`). -/
def resolve_deps (env : Env) : List Event × Option (String × List String) :=
  if env.which "apt-get" then
    let libasound :=
      if env.apt_pkg "libasound2t64" then "libasound2t64" else "libasound2"
    ([Event.probeTool "apt-get", Event.probeAptPkg "libasound2t64"],
     some ("apt-get", aptDeps libasound))
  else if env.which "dnf" then
    ([Event.probeTool "apt-get", Event.probeTool "dnf"],
     some ("dnf", dnfDeps))
  else if env.which "yum" then
    ([Event.probeTool "apt-get", Event.probeTool "dnf", Event.probeTool "yum"],
     some ("yum", yumDeps))
  else
    ([Event.probeTool "apt-get", Event.probeTool "dnf", Event.probeTool "yum"],
     none)

/-- The shell command built at lines 120-128 of `install.rs`: apt-get
additionally refreshes the package index before installing. -/
def install_cmd (pkg_mgr : String) (deps : List String) : String :=
  if pkg_mgr = "apt-get" then
    "sudo apt-get update && sudo apt-get install -y " ++ String.intercalate " " deps
  else
    "sudo " ++ pkg_mgr ++ " install -y " ++ String.intercalate " " deps

/-- The unsupported-platform diagnostic printed at lines 154-159,
naming `env::consts::OS` and `env::consts::ARCH`. -/
def unsupported_platform_msg (os arch : String) : String :=
  error_indicator ++ " Unsupported platform for BrowserOS install: " ++ os ++ " / " ++ arch

/-- The no-package-manager diagnostic printed at lines 113-116. -/
def no_pkg_mgr_msg : String :=
  error_indicator ++ " No supported package manager found (apt-get, dnf, or yum)"

/-- The Linux dependency block of `run_install` (lines 17-151): on
Linux with the dependency mode requested, probe managers, run the
install command (its failure is only a warning), or print the
no-manager error and exit; without the mode, print a hint.  `some o`
means `run_install` terminates right here with outcome `o`. -/
def dep_step (env : Env) (with_deps : Bool) : List Event × Option Outcome :=
  if env.os = "linux" then
    if with_deps then
      let t0 := [Event.out (cyan "Installing system dependencies...")]
      match resolve_deps env with
      | (t, none) =>
          (t0 ++ t ++ [Event.err no_pkg_mgr_msg], some (Outcome.exited 1))
      | (t, some (pkg_mgr, deps)) =>
          let cmd := install_cmd pkg_mgr deps
          let t1 := t0 ++ t ++ [Event.out ("Running: " ++ cmd), Event.shell cmd]
          let t2 :=
            match env.dep_status with
            | some 0 =>
                t1 ++ [Event.out (success_indicator ++ " System dependencies installed")]
            | some _ =>
                t1 ++ [Event.err (warning_indicator ++ " Failed to install some dependencies. You may need to run manually with sudo.")]
            | none =>
                t1 ++ [Event.err (warning_indicator ++ " Could not run install command: " ++ env.io_err)]
          (t2, none)
    else
      ([Event.out (warning_indicator ++ " Linux detected. If browser fails to launch, run:"),
        Event.out "  agent-browser install --with-deps",
        Event.out ""], none)
  else
    ([], none)

/-- The platform-installer dispatch of `run_install` (lines 187-212):
`install_macos_dmg` on macOS, `install_linux_appimage` on Linux, and
no installed executable elsewhere (the `#[cfg(not(any(...)))]` branch). -/
def install_step (env : Env) (download_path home : String) :
    List Event × Except String (Option String) :=
  if env.os = "macos" then
    let r := install_macos_dmg env.mac download_path home
    (r.1, r.2.2.map some)
  else if env.os = "linux" then
    let r := install_linux_appimage env.lin download_path home
    (r.1, r.2.map some)
  else
    ([], Except.ok none)

/-- `run_install` from `install.rs` (lines 14-245), for the
`#[cfg(not(windows))]` build (the Windows-only PowerShell download
branch is not modelled; no claim depends on it): dependency step,
artifact resolution (error + `exit(1)` when `None`), download directory
creation, download (error + `exit(1)` on failure), platform install
(error + `exit(1)` on failure), final report. -/
def run_install (env : Env) (with_deps : Bool) : List Event × Outcome :=
  match dep_step env with_deps with
  | (t, some o) => (t, o)
  | (t, none) =>
    match get_browseros_package env.os env.arch with
    | none =>
        (t ++ [Event.resolveArtifact,
               Event.err (unsupported_platform_msg env.os env.arch)],
         Outcome.exited 1)
    | some package =>
        let t := t ++ [Event.resolveArtifact]
        let browseros_home := env.home ++ "/.browseros"
        let downloads_dir := browseros_home ++ "/downloads"
        if ¬ env.create_downloads_ok then
          (t ++ [Event.createDir downloads_dir,
                 Event.err (error_indicator ++ " Failed to create download directory " ++ downloads_dir ++ ": " ++ env.io_err)],
           Outcome.exited 1)
        else
          let t := t ++ [Event.createDir downloads_dir]
          let download_path := downloads_dir ++ "/" ++ package.file_name
          let t := t ++ [Event.out (cyan "Installing" ++ " Downloading BrowserOS " ++ BROWSEROS_VERSION ++ "...")]
          let dl := download_file
            ⟨env.which, env.curl_status, env.wget_status, env.io_err⟩
            package.url download_path
          match dl.2 with
          | Except.error e =>
              (t ++ dl.1 ++ [Event.err (error_indicator ++ " " ++ e)],
               Outcome.exited 1)
          | Except.ok _ =>
              let t := t ++ dl.1
              let ist := install_step env download_path browseros_home
              match ist.2 with
              | Except.error e =>
                  (t ++ ist.1 ++ [Event.err (error_indicator ++ " " ++ e)],
                   Outcome.exited 1)
              | Except.ok installed =>
                  let t := t ++ ist.1
                  let t := t ++
                    [Event.out (success_indicator ++ " BrowserOS package downloaded"),
                     Event.out ("  " ++ download_path)]
                  let t :=
                    match installed with
                    | some exe =>
                        t ++ [Event.out (success_indicator ++ " BrowserOS executable ready:"),
                              Event.out ("  " ++ exe),
                              Event.out "",
                              Event.out "Set this in your shell:",
                              Event.out ("  export AGENT_BROWSER_EXECUTABLE_PATH=\"" ++ exe ++ "\"")]
                    | none =>
                        if env.os = "windows" then
                          t ++ [Event.out "",
                                Event.out "Run the downloaded installer, then set:",
                                Event.out "  set AGENT_BROWSER_EXECUTABLE_PATH=C:\\Program Files\\BrowserOS\\BrowserOS.exe"]
                        else t
                  let t :=
                    if env.os = "linux" ∧ ¬ with_deps then
                      t ++ [Event.out "",
                            Event.out (yellow "Note:" ++ " If BrowserOS fails to start due to missing shared libraries, run:"),
                            Event.out "  agent-browser install --with-deps"]
                    else t
                  (t, Outcome.completed)

/-- `sub` occurs as a contiguous substring of `s`. -/
def containsSub (s sub : String) : Prop :=
  ∃ pre post, s = pre ++ sub ++ post

/-- A macOS install environment where every external operation succeeds. -/
def baseMacEnv : MacEnv :=
  { stale_mount := false, create_home_ok := true, create_mount_ok := true
    attach_status := some 0, app_in_dmg := true, prev_app := false
    remove_prev_ok := true, copy_status := some 0, exec_exists := true
    io_err := "io error" }

/-- A Linux install environment where every external operation succeeds. -/
def baseLinuxEnv : LinuxEnv :=
  { create_bin_ok := true, copy_ok := true, chmod_status := some 0
    io_err := "io error" }

/-- A host running an OS outside the modeled table (a BSD variant). -/
def bsdEnv : Env :=
  { os := "freebsd", arch := "amd64", home := "/home/u"
    which := fun _ => false, apt_pkg := fun _ => false
    dep_status := some 0, create_downloads_ok := true
    curl_status := some 0, wget_status := some 0
    mac := baseMacEnv, lin := baseLinuxEnv, io_err := "io error" }

/-- A Linux host on which none of apt-get, dnf, yum is available. -/
def noMgrEnv : Env :=
  { os := "linux", arch := "x86_64", home := "/home/u"
    which := fun _ => false, apt_pkg := fun _ => false
    dep_status := some 0, create_downloads_ok := true
    curl_status := some 0, wget_status := some 0
    mac := baseMacEnv, lin := baseLinuxEnv, io_err := "io error" }

/-- A Linux host on which apt-get, dnf and yum are all available and the
`libasound2t64` variant probe succeeds. -/
def allMgrEnv : Env :=
  { os := "linux", arch := "x86_64", home := "/home/u"
    which := fun _ => true, apt_pkg := fun _ => true
    dep_status := some 0, create_downloads_ok := true
    curl_status := some 0, wget_status := some 0
    mac := baseMacEnv, lin := baseLinuxEnv, io_err := "io error" }

/-- C1: For the macOS OS class, `get_browseros_package` is total over
architectures: `aarch64` yields the arm64 descriptor, `x86_64` the x64
descriptor, every other architecture the universal-binary descriptor,
and the function never returns `none` for this OS. -/
theorem macos_artifact_resolution_total (arch : String)
    (h1 : arch ≠ "aarch64") (h2 : arch ≠ "x86_64") :
    get_browseros_package "macos" "aarch64" = some macArmPackage ∧
    get_browseros_package "macos" "x86_64" = some macX64Package ∧
    get_browseros_package "macos" arch = some macUniversalPackage ∧
    (get_browseros_package "macos" arch).isSome = true := by
  refine ⟨by decide, by decide, ?_, ?_⟩ <;>
    simp [get_browseros_package, h1, h2]

/-- C1 witness: the unmodeled architecture `riscv64` resolves to the
universal disk image. -/
theorem macos_artifact_resolution_total_witness :
    get_browseros_package "macos" "aarch64" = some macArmPackage ∧
    get_browseros_package "macos" "x86_64" = some macX64Package ∧
    get_browseros_package "macos" "riscv64" = some macUniversalPackage ∧
    (get_browseros_package "macos" "riscv64").isSome = true :=
  macos_artifact_resolution_total "riscv64" (by decide) (by decide)

/-- C10: every descriptor `get_browseros_package` can return has a URL
that ends with its file name. -/
theorem package_url_names_file (os arch : String) (pkg : BrowserOSPackage)
    (h : get_browseros_package os arch = some pkg) :
    pkg.file_name.data.isSuffixOf pkg.url.data = true := by
  simp only [get_browseros_package] at h
  split_ifs at h <;>
    first
      | exact Option.noConfusion h
      | (injection h with h; subst h; decide)

/-- C10 witness: the macOS arm64 descriptor's URL ends with its file name. -/
theorem package_url_names_file_witness :
    macArmPackage.file_name.data.isSuffixOf macArmPackage.url.data = true :=
  package_url_names_file "macos" "aarch64" macArmPackage (by decide)

/-- C2: for every OS outside the three modeled classes,
`get_browseros_package` returns `none`, and `run_install` prints an
error naming the OS and the architecture and exits with code 1. -/
theorem unsupported_os_fatal (env : Env) (wd : Bool)
    (h1 : env.os ≠ "macos") (h2 : env.os ≠ "windows") (h3 : env.os ≠ "linux") :
    get_browseros_package env.os env.arch = none ∧
    run_install env wd =
      ([Event.resolveArtifact,
        Event.err (unsupported_platform_msg env.os env.arch)],
       Outcome.exited 1) ∧
    containsSub (unsupported_platform_msg env.os env.arch) env.os ∧
    containsSub (unsupported_platform_msg env.os env.arch) env.arch := by
  have hg : get_browseros_package env.os env.arch = none := by
    simp [get_browseros_package, h1, h2, h3]
  have hd : dep_step env wd = ([], none) := by
    simp [dep_step, h3]
  refine ⟨hg, ?_, ?_, ?_⟩
  · simp [run_install, hd, hg]
  · exact ⟨error_indicator ++ " Unsupported platform for BrowserOS install: ",
           " / " ++ env.arch,
           by simp [unsupported_platform_msg, String.append_assoc]⟩
  · exact ⟨error_indicator ++ " Unsupported platform for BrowserOS install: "
             ++ env.os ++ " / ", "",
           by simp [unsupported_platform_msg, String.append_assoc]⟩

/-- C2 witness: a FreeBSD/amd64 host gets no descriptor and the run
exits with code 1 after the unsupported-platform diagnostic. -/
theorem unsupported_os_fatal_witness :
    get_browseros_package bsdEnv.os bsdEnv.arch = none ∧
    run_install bsdEnv true =
      ([Event.resolveArtifact,
        Event.err (unsupported_platform_msg bsdEnv.os bsdEnv.arch)],
       Outcome.exited 1) ∧
    containsSub (unsupported_platform_msg bsdEnv.os bsdEnv.arch) bsdEnv.os ∧
    containsSub (unsupported_platform_msg bsdEnv.os bsdEnv.arch) bsdEnv.arch :=
  unsupported_os_fatal bsdEnv true (by decide) (by decide) (by decide)

/-- C3 counterexample: on a Linux host with no package manager, a run
requested with dependency-install mode terminates with `exit(1)` and
never reaches artifact resolution — the rest of the install does not
run, contradicting the claim that the failure is fatal to the
dependency step only. -/
theorem no_mgr_aborts_rest_counterexample :
    (run_install noMgrEnv true).2 = Outcome.exited 1 ∧
    Event.resolveArtifact ∉ (run_install noMgrEnv true).1 := by
  constructor <;> decide

/-- C3 (amended): when dependency-install mode is requested on Linux and
no package manager is found, the failure is fatal to the entire run:
the process exits with code 1 and artifact resolution never runs. -/
theorem no_mgr_fatal_to_run (env : Env) (h : env.os = "linux")
    (ha : env.which "apt-get" = false) (hd : env.which "dnf" = false)
    (hy : env.which "yum" = false) :
    (run_install env true).2 = Outcome.exited 1 ∧
    Event.resolveArtifact ∉ (run_install env true).1 := by
  have hr : dep_step env true =
      ([Event.out (cyan "Installing system dependencies..."),
        Event.probeTool "apt-get", Event.probeTool "dnf",
        Event.probeTool "yum", Event.err no_pkg_mgr_msg],
       some (Outcome.exited 1)) := by
    simp [dep_step, resolve_deps, h, ha, hd, hy]
  simp [run_install, hr]

/-- C3 witness: a concrete manager-less Linux environment exercising the
amended claim. -/
theorem no_mgr_fatal_to_run_witness :
    (run_install noMgrEnv true).2 = Outcome.exited 1 ∧
    Event.resolveArtifact ∉ (run_install noMgrEnv true).1 :=
  no_mgr_fatal_to_run noMgrEnv rfl rfl rfl rfl

/-- C4: with dependency-install mode requested on Linux and none of
apt-get, dnf, yum found, `run_install` probes the three managers,
prints the unsupported-package-manager message and exits with code 1;
its trace contains no artifact-resolution step, no directory creation
and no subprocess invocation (so no download is attempted). -/
theorem no_mgr_exits_before_resolution (env : Env) (h : env.os = "linux")
    (ha : env.which "apt-get" = false) (hd : env.which "dnf" = false)
    (hy : env.which "yum" = false) :
    run_install env true =
      ([Event.out (cyan "Installing system dependencies..."),
        Event.probeTool "apt-get", Event.probeTool "dnf",
        Event.probeTool "yum", Event.err no_pkg_mgr_msg],
       Outcome.exited 1) ∧
    Event.resolveArtifact ∉ (run_install env true).1 ∧
    (∀ p, Event.createDir p ∉ (run_install env true).1) ∧
    (∀ tool args, Event.invoke tool args ∉ (run_install env true).1) := by
  have hr : dep_step env true =
      ([Event.out (cyan "Installing system dependencies..."),
        Event.probeTool "apt-get", Event.probeTool "dnf",
        Event.probeTool "yum", Event.err no_pkg_mgr_msg],
       some (Outcome.exited 1)) := by
    simp [dep_step, resolve_deps, h, ha, hd, hy]
  refine ⟨by simp [run_install, hr], by simp [run_install, hr], ?_, ?_⟩
  · intro p
    simp [run_install, hr]
  · intro tool args
    simp [run_install, hr]

/-- C4 witness: the concrete manager-less Linux environment exits before
resolution, directory creation and download. -/
theorem no_mgr_exits_before_resolution_witness :
    run_install noMgrEnv true =
      ([Event.out (cyan "Installing system dependencies..."),
        Event.probeTool "apt-get", Event.probeTool "dnf",
        Event.probeTool "yum", Event.err no_pkg_mgr_msg],
       Outcome.exited 1) ∧
    Event.resolveArtifact ∉ (run_install noMgrEnv true).1 ∧
    (∀ p, Event.createDir p ∉ (run_install noMgrEnv true).1) ∧
    (∀ tool args, Event.invoke tool args ∉ (run_install noMgrEnv true).1) :=
  no_mgr_exits_before_resolution noMgrEnv rfl rfl rfl rfl

/-- C5: the dependency resolver probes in the fixed order apt-get, dnf,
yum, the first available manager wins and no later manager is probed;
in particular apt-get is selected whenever its probe succeeds. -/
theorem probe_priority_order (env : Env) :
    (env.which "apt-get" = true →
       (resolve_deps env).1 =
         [Event.probeTool "apt-get", Event.probeAptPkg "libasound2t64"] ∧
       (resolve_deps env).2 =
         some ("apt-get",
           aptDeps (if env.apt_pkg "libasound2t64" then "libasound2t64"
                    else "libasound2")) ∧
       Event.probeTool "dnf" ∉ (resolve_deps env).1 ∧
       Event.probeTool "yum" ∉ (resolve_deps env).1) ∧
    (env.which "apt-get" = false → env.which "dnf" = true →
       (resolve_deps env).1 =
         [Event.probeTool "apt-get", Event.probeTool "dnf"] ∧
       (resolve_deps env).2 = some ("dnf", dnfDeps) ∧
       Event.probeTool "yum" ∉ (resolve_deps env).1) ∧
    (env.which "apt-get" = false → env.which "dnf" = false →
       env.which "yum" = true →
       (resolve_deps env).1 =
         [Event.probeTool "apt-get", Event.probeTool "dnf",
          Event.probeTool "yum"] ∧
       (resolve_deps env).2 = some ("yum", yumDeps)) := by
  refine ⟨?_, ?_, ?_⟩ <;> intros <;> simp [resolve_deps, *]

/-- C5 witness: with apt-get, dnf and yum all available, apt-get is
selected and neither dnf nor yum is probed. -/
theorem probe_priority_order_witness :
    (resolve_deps allMgrEnv).1 =
      [Event.probeTool "apt-get", Event.probeAptPkg "libasound2t64"] ∧
    (resolve_deps allMgrEnv).2 =
      some ("apt-get",
        aptDeps (if allMgrEnv.apt_pkg "libasound2t64" then "libasound2t64"
                 else "libasound2")) ∧
    Event.probeTool "dnf" ∉ (resolve_deps allMgrEnv).1 ∧
    Event.probeTool "yum" ∉ (resolve_deps allMgrEnv).1 :=
  (probe_priority_order allMgrEnv).1 rfl

/-- C6: on the apt-get path the resolved package list contains exactly
one of the two audio-library names: `libasound2t64` when the variant
probe succeeds (and not `libasound2`), `libasound2` when it fails (and
not `libasound2t64`). -/
theorem libasound_variant_exclusive (env : Env)
    (h : env.which "apt-get" = true) :
    (env.apt_pkg "libasound2t64" = true →
       (resolve_deps env).2 = some ("apt-get", aptDeps "libasound2t64") ∧
       "libasound2t64" ∈ aptDeps "libasound2t64" ∧
       "libasound2" ∉ aptDeps "libasound2t64") ∧
    (env.apt_pkg "libasound2t64" = false →
       (resolve_deps env).2 = some ("apt-get", aptDeps "libasound2") ∧
       "libasound2" ∈ aptDeps "libasound2" ∧
       "libasound2t64" ∉ aptDeps "libasound2") := by
  constructor <;> intro hp <;>
    exact ⟨by simp [resolve_deps, h, hp], by decide, by decide⟩

/-- C6 witness: with the variant probe succeeding, the list holds
`libasound2t64` and not `libasound2`. -/
theorem libasound_variant_exclusive_witness :
    (resolve_deps allMgrEnv).2 = some ("apt-get", aptDeps "libasound2t64") ∧
    "libasound2t64" ∈ aptDeps "libasound2t64" ∧
    "libasound2" ∉ aptDeps "libasound2t64" :=
  (libasound_variant_exclusive allMgrEnv rfl).1 rfl

/-- A host with curl on the PATH whose curl run succeeds. -/
def curlEnv : DlEnv :=
  { which := fun t => t == "curl", curl_status := some 0
    wget_status := some 0, io_err := "io error" }

/-- A host with curl on the PATH whose curl run exits with status 7. -/
def curlFailEnv : DlEnv :=
  { which := fun t => t == "curl", curl_status := some 7
    wget_status := some 0, io_err := "io error" }

/-- C7: on non-Windows hosts `download_file` prefers curl with a retry
bound of 3 attempts, falls back to wget with no retry, and with neither
tool fails immediately with the no-fetch-tool error without invoking
any download tool. -/
theorem fetch_tool_selection (env : DlEnv) (url output : String) :
    (env.which "curl" = true →
       (download_file env url output).1 =
         [Event.probeTool "curl",
          Event.invoke "curl" ["-fL", "--retry", "3", "-o", output, url]]) ∧
    (env.which "curl" = false → env.which "wget" = true →
       (download_file env url output).1 =
         [Event.probeTool "curl", Event.probeTool "wget",
          Event.invoke "wget" ["-O", output, url]]) ∧
    (env.which "curl" = false → env.which "wget" = false →
       download_file env url output =
         ([Event.probeTool "curl", Event.probeTool "wget"],
          Except.error "Neither curl nor wget is available in PATH") ∧
       (∀ tool args,
          Event.invoke tool args ∉ (download_file env url output).1)) := by
  refine ⟨?_, ?_, ?_⟩
  · intro h
    rcases hc : env.curl_status with _ | c
    · simp [download_file, h, hc]
    · by_cases h0 : c = 0 <;> simp [download_file, h, hc, h0]
  · intro h1 h2
    rcases hw : env.wget_status with _ | c
    · simp [download_file, h1, h2, hw]
    · by_cases h0 : c = 0 <;> simp [download_file, h1, h2, hw, h0]
  · intro h1 h2
    refine ⟨by simp [download_file, h1, h2], ?_⟩
    intro tool args
    simp [download_file, h1, h2]

/-- C7 witness: with curl available it is invoked with `--retry 3`. -/
theorem fetch_tool_selection_witness :
    (download_file curlEnv "http://u" "/tmp/f").1 =
      [Event.probeTool "curl",
       Event.invoke "curl" ["-fL", "--retry", "3", "-o", "/tmp/f", "http://u"]] :=
  (fetch_tool_selection curlEnv "http://u" "/tmp/f").1 (by decide)

/-- C8: `download_file` returns `Ok` exactly when the chosen fetch
tool's subprocess exits with status 0, and on a non-zero exit the error
message contains both the original URL and the exit status. -/
theorem download_status_contract (env : DlEnv) (url output : String) :
    (env.which "curl" = true →
       ((download_file env url output).2 = Except.ok () ↔
          env.curl_status = some 0) ∧
       (∀ c, env.curl_status = some c → c ≠ 0 →
          (download_file env url output).2 =
            Except.error (download_fail_msg url c) ∧
          containsSub (download_fail_msg url c) url ∧
          containsSub (download_fail_msg url c) (toString c))) ∧
    (env.which "curl" = false → env.which "wget" = true →
       ((download_file env url output).2 = Except.ok () ↔
          env.wget_status = some 0) ∧
       (∀ c, env.wget_status = some c → c ≠ 0 →
          (download_file env url output).2 =
            Except.error (download_fail_msg url c) ∧
          containsSub (download_fail_msg url c) url ∧
          containsSub (download_fail_msg url c) (toString c))) := by
  have hurl : ∀ c, containsSub (download_fail_msg url c) url := by
    intro c
    exact ⟨"Download failed for ", " (" ++ exit_status_display c ++ ")",
           by simp [download_fail_msg, String.append_assoc]⟩
  have hcode : ∀ c, containsSub (download_fail_msg url c) (toString c) := by
    intro c
    refine ⟨"Download failed for " ++ url ++ " (exit status: ", ")", ?_⟩
    have hgrp : ∀ s : String, " (" ++ ("exit status: " ++ s) = " (exit status: " ++ s := by
      intro s
      rw [← String.append_assoc]
      rfl
    simp [download_fail_msg, exit_status_display, String.append_assoc, hgrp]
  constructor
  · intro h
    constructor
    · rcases hc : env.curl_status with _ | c
      · simp [download_file, h, hc]
      · by_cases h0 : c = 0 <;> simp [download_file, h, hc, h0]
    · intro c hc h0
      exact ⟨by simp [download_file, h, hc, h0], hurl c, hcode c⟩
  · intro h1 h2
    constructor
    · rcases hw : env.wget_status with _ | c
      · simp [download_file, h1, h2, hw]
      · by_cases h0 : c = 0 <;> simp [download_file, h1, h2, hw, h0]
    · intro c hw h0
      exact ⟨by simp [download_file, h1, h2, hw, h0], hurl c, hcode c⟩

/-- C8 witness: a curl run exiting with status 7 yields the failure
message holding the URL and the exit status. -/
theorem download_status_contract_witness :
    (download_file curlFailEnv "http://u" "/tmp/f").2 =
      Except.error (download_fail_msg "http://u" 7) ∧
    containsSub (download_fail_msg "http://u" 7) "http://u" ∧
    containsSub (download_fail_msg "http://u" 7) (toString 7) :=
  ((download_status_contract curlFailEnv "http://u" "/tmp/f").1
    (by decide)).2 7 rfl (by decide)

/-- A macOS install environment in which the `hdiutil attach` subprocess
cannot be spawned at all (`Command::status()` returns an io error). -/
def attachSpawnFailEnv : MacEnv :=
  { stale_mount := false, create_home_ok := true, create_mount_ok := true
    attach_status := none, app_in_dmg := true, prev_app := false
    remove_prev_ok := true, copy_status := some 0, exec_exists := true
    io_err := "spawn failed" }

/-- A macOS install environment whose bundle copy exits non-zero,
exercising the cleanup-on-error path of the protected block. -/
def copyFailMacEnv : MacEnv :=
  { stale_mount := true, create_home_ok := true, create_mount_ok := true
    attach_status := some 0, app_in_dmg := true, prev_app := true
    remove_prev_ok := true, copy_status := some 1, exec_exists := true
    io_err := "io error" }

/-- C9 counterexample: when spawning `hdiutil attach` itself fails, the
`map_err(..)?` at the mount attempt returns the error before any
cleanup, so the staging/mount directory still exists when
`install_macos_dmg` returns — an exit path on which the directory is
not removed. -/
theorem mount_dir_leak_on_attach_spawn_failure :
    (install_macos_dmg attachSpawnFailEnv "/tmp/b.dmg" "/home/u/.browseros").2.1
      = true ∧
    (install_macos_dmg attachSpawnFailEnv "/tmp/b.dmg" "/home/u/.browseros").2.2
      = Except.error "Failed to mount BrowserOS DMG: spawn failed" := by
  constructor <;> rfl

/-- C9 (amended): for every run of the disk-image install step that
reaches the mount attempt and whose `hdiutil attach` subprocess is
spawned (it reports some exit status), the staging/mount directory no
longer exists when `install_macos_dmg` returns, on every exit path:
removed before the error when the mount exits unsuccessfully, and
removed by the unconditional cleanup after a successful mount whatever
the protected block's result.  Only when the mount tool cannot be
spawned at all is the error returned without removing the directory. -/
theorem mount_dir_cleanup (env : MacEnv) (dmg home : String) (c : Nat)
    (h1 : env.create_home_ok = true) (h2 : env.create_mount_ok = true)
    (h3 : env.attach_status = some c) :
    (install_macos_dmg env dmg home).2.1 = false := by
  by_cases h0 : c = 0 <;>
    simp [install_macos_dmg, h1, h2, h3, h0]

/-- C9 witness: a run whose bundle copy fails still returns with the
staging directory removed. -/
theorem mount_dir_cleanup_witness :
    (install_macos_dmg copyFailMacEnv "/tmp/b.dmg" "/home/u/.browseros").2.1
      = false :=
  mount_dir_cleanup copyFailMacEnv "/tmp/b.dmg" "/home/u/.browseros" 0
    rfl rfl rfl
